import Mathlib

/-
Verification of the Quirk GPU quantum-circuit gate catalog and texture
resource manager, shallowly embedded from:
  src/gates/AllGates.js, src/gates/MeasurementGate.js, src/webgl/WglTexture.js
Machine reals of the source are modelled exactly (ℝ for amplitudes and
angles, ℚ for the circuit time parameter); JavaScript integer bit
operations are modelled on ℕ; JavaScript exceptions are modelled with
`Except`.
-/

set_option maxHeartbeats 1000000

namespace Quirk

/-- DetailedError from src/base/DetailedError.js as thrown by the error
injection gate shader: `new DetailedError("Applied an Error Injection Gate",
with detail object holding the qubit index)`. -/
structure DetailedError where
  message : String
  detailQubit : Nat
  deriving DecidableEq

/-- A GPU shader invocation issued by a gate's custom-shader kernel.  Texture
handles are abstract naturals; the constructor records which shader of the
kernel library is invoked and with which arguments, mirroring the call sites
in AllGates.js. -/
inductive ShaderGlsl
  | swap (valTex a b conTex : Nat)
  | fourierStep (valTex conTex bit step : Nat)
  | cycleBits (valTex conTex bit span shift : Nat)
  | universalNot (valTex conTex bit : Nat)
  deriving DecidableEq

/-- A custom-shader kernel: a function of (input value texture, control
texture, target qubit index).  A kernel either issues a shader call or throws
(models the JavaScript `throw` in the error injection gate). -/
def KernelFn : Type := Nat → Nat → Nat → Except DetailedError ShaderGlsl

/-- Immutable gate descriptor assembled by the Gate builder chain in
AllGates.js.  `stable` records a `markedAsStable()` call, `stableDuration` a
`withStableDuration(d)` call, `onlyPermutingAndPhasing` a
`markedAsOnlyPermutingAndPhasing()` call.  Matrices are total functions on
ℕ×ℕ; only indices below 2^height are meaningful.  Drawer hooks are omitted
(rendering is out of scope per the spec). -/
structure GateDef where
  symbol : String
  title : String
  blurb : String
  serializedId : String
  height : Nat
  stable : Bool
  knownMatrix : Option (Nat → Nat → ℂ)
  varyingMatrix : Option (ℚ → Nat → Nat → ℂ)
  customShaders : List KernelFn
  onlyPermutingAndPhasing : Bool
  stableDuration : Option ℚ

/-- `const τ = Math.PI * 2` at the top of AllGates.js. -/
noncomputable def tau : ℝ := Real.pi * 2

/-- Complex.polar(magnitude, phase) from src/math/Complex.js (standard polar
form magnitude·e^(i·phase), as the spec describes: cos/sin of the phase). -/
noncomputable def polar (magnitude angle : ℝ) : ℂ :=
  (magnitude : ℂ) * Complex.exp ((angle : ℂ) * Complex.I)

/-- FOURIER_TRANSFORM_MATRIX_MAKER (AllGates.js lines 137-138):
`Matrix.generate(1<<span, 1<<span, (r, c) =>
   Complex.polar(Math.pow(0.5, span/2), τ*r*c/(1<<span)))`. -/
noncomputable def FOURIER_TRANSFORM_MATRIX_MAKER (span : Nat) : Nat → Nat → ℂ :=
  fun r c => polar ((1 / 2 : ℝ) ^ ((span : ℝ) / 2)) (tau * r * c / (2 : ℝ) ^ span)

/-- Modelled from the spec: `Gate.generateFamily` (src/circuit/Gate.js is not
under src/).  Per §3/§4.4, family generation produces span-indexed variants
over a declared inclusive range as a pure function of the span. -/
def generateFamily (first last : Nat) (f : Nat → GateDef) : List GateDef :=
  (List.range (last + 1 - first)).map (fun i => f (first + i))

/-- The span-indexed Fourier transform gate (AllGates.js lines 140-153).
The custom shader list is `⌊span/2⌋` swap passes (the i-th call is
`CircuitShaders.swap(val, bit + i, bit + span - i - 1, con)`) followed by
`span` Fourier-step passes (the i-th call is
`GateShaders.fourierTransformStep(val, con, bit, i)`). -/
noncomputable def qftGate (span : Nat) : GateDef where
  symbol := "QFT"
  title := "Fourier Transform Gate"
  blurb := "Transforms to/from phase frequency space."
  serializedId := "QFT" ++ toString span
  height := span
  stable := true
  knownMatrix := if 4 ≤ span then none else some (FOURIER_TRANSFORM_MATRIX_MAKER span)
  varyingMatrix := none
  customShaders :=
    (List.range (span / 2)).map
      (fun i => fun val con bit =>
        Except.ok (ShaderGlsl.swap val (bit + i) (bit + span - i - 1) con))
    ++ (List.range span).map
      (fun i => fun val con bit => Except.ok (ShaderGlsl.fourierStep val con bit i))
  onlyPermutingAndPhasing := false
  stableDuration := none

/-- `Gates.FourierTransformFamily = Gate.generateFamily(1, 16, span => ...)`. -/
noncomputable def Gates_FourierTransformFamily : List GateDef :=
  generateFamily 1 16 qftGate

/-- The bit rotation computed inside CYCLE_BITS_MATRIX_MAKER (AllGates.js
lines 384-390): `actual = input << 1; actual = (actual & ((1 << span) - 1))
| (actual >> span)`. -/
def jsRotl (span c : Nat) : Nat :=
  ((c <<< 1) &&& ((1 <<< span) - 1)) ||| ((c <<< 1) >>> span)

/-- CYCLE_BITS_MATRIX_MAKER (AllGates.js lines 384-390): entry (r, c) is 1
when r equals the rotated input index, else 0. -/
noncomputable def CYCLE_BITS_MATRIX_MAKER (span : Nat) : Nat → Nat → ℂ :=
  fun r c => if r = jsRotl span c then 1 else 0

/-- Spec-side definition of "c rotated left by one position within span
bits": the low span-1 bits shift up one place and the old top bit wraps to
the bottom. -/
def rotLeftSpec (span c : Nat) : Nat :=
  2 * c % 2 ^ span + c / 2 ^ (span - 1)

/-- Right rotation by one position within span bits (the inverse of
`rotLeftSpec` on indices below 2^span); used to name the permutation the
bit-cycle matrix applies to amplitude addresses. -/
def rotRight (span r : Nat) : Nat :=
  r / 2 + r % 2 * 2 ^ (span - 1)

/-- The span-indexed bit-cycle gate (AllGates.js lines 410-419). -/
noncomputable def cycleBitsGate (span : Nat) : GateDef where
  symbol := "<<=1"
  title := "Bit Cycle Gate"
  blurb := "Swaps bits in a cycle."
  serializedId := "__unstable__cycle" ++ toString span
  height := span
  stable := true
  knownMatrix := if 4 ≤ span then none else some (CYCLE_BITS_MATRIX_MAKER span)
  varyingMatrix := none
  customShaders := [fun val con bit => Except.ok (ShaderGlsl.cycleBits val con bit span 1)]
  onlyPermutingAndPhasing := true
  stableDuration := none

/-- `Gates.ExperimentalAndImplausible.CycleBitsFamily =
Gate.generateFamily(2, 16, span => ...)`. -/
noncomputable def CycleBitsFamily : List GateDef :=
  generateFamily 2 16 cycleBitsGate

/-- The custom shader of the error injection gate (AllGates.js lines 405-407):
`(inputTex, controlTex, qubit) => { throw new DetailedError("Applied an Error
Injection Gate", with the qubit in the detail object); }`.  The JavaScript
`throw` is modelled as `Except.error`. -/
def errorInjectionShader : KernelFn :=
  fun _inputTex _controlTex qubit =>
    Except.error { message := "Applied an Error Injection Gate", detailQubit := qubit }

/-- Gates.ExperimentalAndImplausible.ErrorInjection (AllGates.js 400-409). -/
def ErrorInjection : GateDef where
  symbol := "ERR!"
  title := "Error Injection Gate"
  blurb := "Throws an exception during circuit stat computations, for testing error paths."
  serializedId := "__debug__ErrorInjection"
  height := 1
  stable := true
  knownMatrix := none
  varyingMatrix := none
  customShaders := [errorInjectionShader]
  onlyPermutingAndPhasing := false
  stableDuration := none

/-- Evaluation-scoped handling of a kernel result at the evaluator boundary:
an ordinary `match` recovers from the fault (models a JavaScript try/catch;
the host process continues by construction). -/
def runShaderCaught {β : Type} (r : Except DetailedError ShaderGlsl)
    (onFault : DetailedError → β) (onOk : ShaderGlsl → β) : β :=
  match r with
  | .ok s => onOk s
  | .error e => onFault e

/-- The eight `Math.random()` draws consumed by Gates.Misc.MysteryGateMaker
(AllGates.js lines 337-342), in source order: real then imaginary part of
each of the four matrix entries. -/
structure MysteryRandomSamples where
  aRe : ℝ
  aIm : ℝ
  bRe : ℝ
  bIm : ℝ
  cRe : ℝ
  cIm : ℝ
  dRe : ℝ
  dIm : ℝ

/-- The raw (pre-closestUnitary) 2×2 matrix built from the random samples:
`Matrix.square(new Complex(r0 - 0.5, r1 - 0.5), ...)`. -/
noncomputable def mysteryRawMatrix (s : MysteryRandomSamples) : Nat → Nat → ℂ :=
  fun r c =>
    if r = 0 ∧ c = 0 then ⟨s.aRe - 1 / 2, s.aIm - 1 / 2⟩
    else if r = 0 ∧ c = 1 then ⟨s.bRe - 1 / 2, s.bIm - 1 / 2⟩
    else if r = 1 ∧ c = 0 then ⟨s.cRe - 1 / 2, s.cIm - 1 / 2⟩
    else if r = 1 ∧ c = 1 then ⟨s.dRe - 1 / 2, s.dIm - 1 / 2⟩
    else 0

/-- `Gates.Misc.MysteryGateSymbol = "?"`. -/
def MysteryGateSymbol : String := "?"

/-- Gates.Misc.MysteryGateMakerWithMatrix (AllGates.js lines 330-336): builds
a gate from a concretely fixed matrix via Gate.fromKnownMatrix.  The
serialization id defaults to the symbol. -/
noncomputable def MysteryGateMakerWithMatrix (matrix : Nat → Nat → ℂ) : GateDef where
  symbol := MysteryGateSymbol
  title := "Mystery Gate"
  blurb := "Every time you grab this gate out of the toolbox, it changes.\nDuplicate gates in the circuit by holding shift before dragging."
  serializedId := MysteryGateSymbol
  height := 1
  stable := false
  knownMatrix := some matrix
  varyingMatrix := none
  customShaders := []
  onlyPermutingAndPhasing := false
  stableDuration := none

/-- Gates.Misc.MysteryGateMaker (AllGates.js lines 337-342).  The random
source is consumed here, at construction: the eight samples are explicit
inputs and the resulting matrix is fixed in the returned definition.
`Matrix.closestUnitary` lives in src/math/Matrix.js, which is not under src/;
it is universally quantified rather than modelled, since every claim about
the maker holds for any choice of it. -/
noncomputable def MysteryGateMaker (closestUnitary : (Nat → Nat → ℂ) → Nat → Nat → ℂ)
    (s : MysteryRandomSamples) : GateDef :=
  MysteryGateMakerWithMatrix (closestUnitary (mysteryRawMatrix s))

/-- JavaScript truncation toward zero, as used by the `%` remainder. -/
def jsTrunc (q : ℚ) : ℤ :=
  if 0 ≤ q then ⌊q⌋ else ⌈q⌉

/-- JavaScript `t % 1`: remainder with the sign of the dividend. -/
def jsMod1 (q : ℚ) : ℚ :=
  q - jsTrunc q

/-- Matrix.identity(n) from src/math/Matrix.js (standard identity). -/
noncomputable def Matrix_identity (n : Nat) : Nat → Nat → ℂ :=
  fun r c => if r = c then 1 else 0

/-- Matrix.PAULI_X from src/math/Matrix.js (standard Pauli X). -/
noncomputable def Matrix_PAULI_X : Nat → Nat → ℂ :=
  fun r c => if (r = 0 ∧ c = 1) ∨ (r = 1 ∧ c = 0) then 1 else 0

/-- Time-varying matrix of Gates.Misc.ClockPulseGate (AllGates.js line 346):
`t => (t % 1) < 0.5 ? Matrix.identity(2) : Matrix.PAULI_X`. -/
noncomputable def clockPulseMatrix (t : ℚ) : Nat → Nat → ℂ :=
  if jsMod1 t < 1 / 2 then Matrix_identity 2 else Matrix_PAULI_X

/-- Time-varying matrix of Gates.Misc.QuarterPhaseClockPulseGate (AllGates.js
line 354): `t => ((t+0.75) % 1) < 0.5 ? Matrix.identity(2) : Matrix.PAULI_X`. -/
noncomputable def quarterPhaseClockPulseMatrix (t : ℚ) : Nat → Nat → ℂ :=
  if jsMod1 (t + 3 / 4) < 1 / 2 then Matrix_identity 2 else Matrix_PAULI_X

/-- Gates.Misc.ClockPulseGate (AllGates.js lines 344-350). -/
noncomputable def ClockPulseGate : GateDef where
  symbol := "X^⌈t⌉"
  title := "Clock Pulse Gate"
  blurb := "Xors a square wave into the target wire."
  serializedId := "X^⌈t⌉"
  height := 1
  stable := false
  knownMatrix := none
  varyingMatrix := some clockPulseMatrix
  customShaders := []
  onlyPermutingAndPhasing := false
  stableDuration := some (1 / 2)

/-- Gates.Misc.QuarterPhaseClockPulseGate (AllGates.js lines 352-358). -/
noncomputable def QuarterPhaseClockPulseGate : GateDef where
  symbol := "X^⌈t-¼⌉"
  title := "Clock Pulse Gate (Quarter Phase)"
  blurb := "Xors a quarter-phased square wave into the target wire."
  serializedId := "X^⌈t-¼⌉"
  height := 1
  stable := false
  knownMatrix := none
  varyingMatrix := some quarterPhaseClockPulseMatrix
  customShaders := []
  onlyPermutingAndPhasing := false
  stableDuration := some (1 / 4)

/-- The matrix a gate presents at circuit time t: the varying matrix when one
is declared, else the static known matrix. -/
noncomputable def matrixAt (g : GateDef) (t : ℚ) : Option (Nat → Nat → ℂ) :=
  match g.varyingMatrix with
  | some f => some (f t)
  | none => g.knownMatrix

/-- Dense matrix application to an amplitude vector over the first `size`
basis states. -/
noncomputable def matrixApply (M : Nat → Nat → ℂ) (size : Nat) (v : Nat → ℂ) : Nat → ℂ :=
  fun r => ∑ c in Finset.range size, M r c * v c

/-- Applying a gate to an amplitude state at circuit time t (matrix path). -/
noncomputable def applyGateAt (g : GateDef) (t : ℚ) (v : Nat → ℂ) : Option (Nat → ℂ) :=
  (matrixAt g t).map (fun M => matrixApply M (2 ^ g.height) v)

/-- The single-qubit basis state |0⟩, amplitude vector [1, 0]. -/
noncomputable def ket0 : Nat → ℂ :=
  fun n => if n = 0 then 1 else 0

/-- A texture+framebuffer pair as produced by
`WglTexture.textureAndFramebufferInitializer`. -/
structure TexHandles where
  texture : Nat
  framebuffer : Nat
  deriving DecidableEq

/-- Modelled from the spec: the per-context lazily initialized value slot of
WglTexture (`WglMortalValueSlot`, src/webgl/WglMortalValueSlot.js, is not
under src/).  Per spec §3/§4.1 the texture+framebuffer pair is lazily created
the first time the texture is bound to a rendering context and cached for
that context.  `slot` holds the cached (context id, pair); `allocations` and
`validations` count GPU allocations and framebuffer-completeness checks. -/
structure WglTextureState where
  width : Nat
  height : Nat
  pixelType : Nat
  slot : Option (Nat × TexHandles)
  allocations : Nat
  validations : Nat
  deriving DecidableEq

/-- The WglTexture constructor (WglTexture.js lines 14-24): records the
dimensions and pixel type and an empty slot.  No GPU resource is touched. -/
def WglTexture_new (w h pixelType : Nat) : WglTextureState where
  width := w
  height := h
  pixelType := pixelType
  slot := none
  allocations := 0
  validations := 0

/-- `textureAndFramebufferInitializer` run for a context: allocates a fresh
texture+framebuffer pair, validates it, and caches it in the slot
(WglTexture.js lines 40-66; fresh handle names are drawn from the allocation
counter). -/
def initializePair (s : WglTextureState) (ctx : Nat) : TexHandles × WglTextureState :=
  let h : TexHandles := { texture := 2 * s.allocations, framebuffer := 2 * s.allocations + 1 }
  (h, { s with slot := some (ctx, h),
                allocations := s.allocations + 1,
                validations := s.validations + 1 })

/-- `WglTexture.instanceFor` (WglTexture.js lines 31-34): return the cached
pair for the context if present, else initialize once and cache. -/
def instanceFor (s : WglTextureState) (ctx : Nat) : TexHandles × WglTextureState :=
  match s.slot with
  | some (c, h) => if c = ctx then (h, s) else initializePair s ctx
  | none => initializePair s ctx

/-- `WglTexture.bindFramebufferFor` (WglTexture.js lines 73-79): initializes
via `instanceFor` if necessary, then binds the cached framebuffer. -/
def bindFramebufferFor (s : WglTextureState) (ctx : Nat) : Nat × WglTextureState :=
  ((instanceFor s ctx).1.framebuffer, (instanceFor s ctx).2)

/-- WebGLRenderingContext.NO_ERROR. -/
def GL_NO_ERROR : Nat := 0

/-- WebGLRenderingContext.FRAMEBUFFER_COMPLETE. -/
def GL_FRAMEBUFFER_COMPLETE : Nat := 36053

/-- A fault raised by the GL error checkers. -/
structure GlFault where
  operation : String
  code : Nat
  deriving DecidableEq

/-- Modelled from the spec: `WglUtil.checkGetErrorResult` (src/webgl/WglUtil.js
is not under src/).  Per spec §4.1/§7 it raises a fatal detailed fault on a
GL error; the call sites in WglTexture.js pass it exactly two values — the
`gl.getError()` code and an operation description string — so the fault is a
function of those two values only. -/
def checkGetErrorResult (errorCode : Nat) (operation : String) : Except GlFault Unit :=
  if errorCode = GL_NO_ERROR then Except.ok () else Except.error ⟨operation, errorCode⟩

/-- Modelled from the spec: `WglUtil.checkFrameBufferStatusResult`
(src/webgl/WglUtil.js is not under src/).  Per spec §4.1 it validates
framebuffer completeness, failing fatally otherwise; its call sites pass it
exactly the `gl.checkFramebufferStatus` result. -/
def checkFrameBufferStatusResult (status : Nat) : Except GlFault Unit :=
  if status = GL_FRAMEBUFFER_COMPLETE then Except.ok ()
  else Except.error ⟨"checkFramebufferStatus", status⟩

/-- The GL outcomes observed by one run of the initializer / binder: the
`gl.getError()` results after texImage2D, after framebufferTexture2D, after
bindFramebuffer, and the `gl.checkFramebufferStatus` result. -/
structure GlEnv where
  errAfterTexImage2D : Nat
  errAfterFramebufferTexture2D : Nat
  framebufferStatus : Nat
  errAfterBindFramebuffer : Nat
  deriving DecidableEq

/-- The fallible check sequence of `textureAndFramebufferInitializer`
(WglTexture.js lines 40-66): allocate, upload with the texture's width and
height, then `checkGetErrorResult(gl.getError(), "texImage2D")`, attach, then
`checkGetErrorResult(gl.getError(), "framebufferTexture2D")`, then
`checkFrameBufferStatusResult(gl.checkFramebufferStatus(...))`.  The width
and height parameters reach only the GL upload, not the checks. -/
def textureAndFramebufferInitializerRun (width height : Nat) (env : GlEnv) :
    Except GlFault TexHandles :=
  match checkGetErrorResult env.errAfterTexImage2D "texImage2D" with
  | .error e => .error e
  | .ok _ =>
    match checkGetErrorResult env.errAfterFramebufferTexture2D "framebufferTexture2D" with
    | .error e => .error e
    | .ok _ =>
      match checkFrameBufferStatusResult env.framebufferStatus with
      | .error e => .error e
      | .ok _ => .ok { texture := 0, framebuffer := 1 }

/-- The post-bind check sequence of `bindFramebufferFor` (WglTexture.js lines
73-79): after `gl.bindFramebuffer`, the source runs
`checkGetErrorResult(gl.getError(), "framebufferTexture2D")` (the literal
description string at line 77) and then the framebuffer status check. -/
def bindFramebufferForChecks (env : GlEnv) : Except GlFault Unit :=
  match checkGetErrorResult env.errAfterBindFramebuffer "framebufferTexture2D" with
  | .error e => .error e
  | .ok _ => checkFrameBufferStatusResult env.framebufferStatus

/-- An exact rational rotation parameter recorded as (numerator,
denominator); the source writes these as literals such as `0.25`, `1 / 6`,
`-1 / 32`. -/
structure RotParam where
  num : Int
  den : Nat
  deriving DecidableEq

/-- Negation of a rotation parameter. -/
def RotParam.neg (p : RotParam) : RotParam :=
  { num := -p.num, den := p.den }

/-- The data at a `Gate.fromKnownMatrix(symbol, Matrix.fromPauliRotation(x, y,
z), title, blurb)` call site: the symbol, the three rotation parameters, and
the title.  (Blurbs are UI text and omitted;
`Matrix.fromPauliRotation` itself lives in src/math/Matrix.js, outside src/.) -/
structure PauliRotationGate where
  symbol : String
  x : RotParam
  y : RotParam
  z : RotParam
  title : String
  deriving DecidableEq

def rp0 : RotParam := ⟨0, 1⟩

def SqrtXForward : PauliRotationGate := ⟨"X^½", ⟨1, 4⟩, rp0, rp0, "√X Gate"⟩
def SqrtXBackward : PauliRotationGate := ⟨"X^-½", ⟨3, 4⟩, rp0, rp0, "X^-½ Gate"⟩
def SqrtYForward : PauliRotationGate := ⟨"Y^½", rp0, ⟨1, 4⟩, rp0, "√Y Gate"⟩
def SqrtYBackward : PauliRotationGate := ⟨"Y^-½", rp0, ⟨3, 4⟩, rp0, "Y^-½ Gate"⟩
def SqrtZForward : PauliRotationGate := ⟨"Z^½", rp0, rp0, ⟨1, 4⟩, "√Z Gate"⟩
def SqrtZBackward : PauliRotationGate := ⟨"Z^-½", rp0, rp0, ⟨3, 4⟩, "Z^-½ Gate"⟩

def Z3 : PauliRotationGate := ⟨"Z^⅓", rp0, rp0, ⟨1, 6⟩, "Z^⅓ Gate"⟩
def Z3i : PauliRotationGate := ⟨"Z^-⅓", rp0, rp0, ⟨-1, 6⟩, "Z^-⅓ Gate"⟩
def Z4 : PauliRotationGate := ⟨"Z^¼", rp0, rp0, ⟨1, 8⟩, "Z^¼ Gate"⟩
def Z4i : PauliRotationGate := ⟨"Z^-¼", rp0, rp0, ⟨-1, 8⟩, "Z^-¼ Gate"⟩
def Z8 : PauliRotationGate := ⟨"Z^⅛", rp0, rp0, ⟨1, 16⟩, "Z^⅛ Gate"⟩
def Z8i : PauliRotationGate := ⟨"Z^-⅛", rp0, rp0, ⟨-1, 16⟩, "Z^-⅛ Gate"⟩
def Z16 : PauliRotationGate := ⟨"Z^⅟₁₆", rp0, rp0, ⟨1, 32⟩, "Z^⅟₁₆ Gate"⟩
def Z16i : PauliRotationGate := ⟨"Z^-⅟₁₆", rp0, rp0, ⟨-1, 32⟩, "Z^-⅟₁₆ Gate"⟩

def X3 : PauliRotationGate := ⟨"X^⅓", ⟨1, 6⟩, rp0, rp0, "X^⅓ Gate"⟩
def X3i : PauliRotationGate := ⟨"X^-⅓", ⟨-1, 6⟩, rp0, rp0, "X^-⅓ Gate"⟩
def X4 : PauliRotationGate := ⟨"X^¼", ⟨1, 8⟩, rp0, rp0, "X^¼ Gate"⟩
def X4i : PauliRotationGate := ⟨"X^-¼", ⟨-1, 8⟩, rp0, rp0, "X^-¼ Gate"⟩
def X8 : PauliRotationGate := ⟨"X^⅛", ⟨1, 16⟩, rp0, rp0, "X^⅛ Gate"⟩
def X8i : PauliRotationGate := ⟨"X^-⅛", ⟨-1, 16⟩, rp0, rp0, "X^-⅛ Gate"⟩
def X16 : PauliRotationGate := ⟨"X^⅟₁₆", ⟨1, 32⟩, rp0, rp0, "X^⅟₁₆ Gate"⟩
def X16i : PauliRotationGate := ⟨"X^-⅟₁₆", ⟨-1, 32⟩, rp0, rp0, "X^-⅟₁₆ Gate"⟩

def Y3 : PauliRotationGate := ⟨"Y^⅓", rp0, ⟨1, 6⟩, rp0, "Y^⅓ Gate"⟩
def Y3i : PauliRotationGate := ⟨"Y^-⅓", rp0, ⟨-1, 6⟩, rp0, "Y^-⅓ Gate"⟩
def Y4 : PauliRotationGate := ⟨"Y^¼", rp0, ⟨1, 8⟩, rp0, "Y^¼ Gate"⟩
def Y4i : PauliRotationGate := ⟨"Y^-¼", rp0, ⟨-1, 8⟩, rp0, "Y^-¼ Gate"⟩
def Y8 : PauliRotationGate := ⟨"Y^⅛", rp0, ⟨1, 16⟩, rp0, "Y^⅛ Gate"⟩
def Y8i : PauliRotationGate := ⟨"Y^-⅛", rp0, ⟨-1, 16⟩, rp0, "Y^-⅛ Gate"⟩
def Y16 : PauliRotationGate := ⟨"Y^⅟₁₆", rp0, ⟨1, 32⟩, rp0, "Y^⅟₁₆ Gate"⟩
def Y16i : PauliRotationGate := ⟨"Y^-⅟₁₆", rp0, ⟨-1, 32⟩, rp0, "Y^-⅟₁₆ Gate"⟩

/-- A reference to a catalog gate as it appears in the `Gates.Sets` grouping
table and the `Gates.KnownToSerializer` list.  Gates whose defining module is
not under src/ are referenced by the property path used at the reference site
(e.g. `halfTurn "H"` for `Gates.HalfTurns.H`); `familyOfSize f n` stands for
`f.ofSize(n)` and `familyAll f` for a spread `...f.all`. -/
inductive CatalogRef
  | control
  | antiControl
  | measurement
  | swapHalf
  | postSelectOff
  | postSelectOn
  | postSelectPlus
  | postSelectMinus
  | blochSphereDisplay
  | spacer
  | clockPulse
  | quarterPhaseClockPulse
  | mysteryGate
  | universalNot
  | errorInjection
  | halfTurn (name : String)
  | powering (name : String)
  | exponentiating (name : String)
  | rotGate (g : PauliRotationGate)
  | familyOfSize (familyName : String) (size : Nat)
  | familyAll (familyName : String)
  deriving DecidableEq

/-- One row of the `Gates.Sets` grouping table: a hint plus six gate slots
(a slot may be `null` in the source, hence `Option`). -/
structure GateSetRow where
  hint : String
  gates : List (Option CatalogRef)
  deriving DecidableEq

/-- The gates list of the "Other Z" row (AllGates.js lines 547-557), exactly
as written in the source: Z16, Z8, Z3, Z16 again, Z8i, Z3i. -/
def otherZSetGates : List (Option CatalogRef) :=
  [some (.rotGate Z16), some (.rotGate Z8), some (.rotGate Z3),
   some (.rotGate Z16), some (.rotGate Z8i), some (.rotGate Z3i)]

/-- `Gates.Sets` (AllGates.js lines 425-558). -/
def Gates_Sets : List GateSetRow :=
  [⟨"Probes",
    [some .measurement, some .postSelectOff, some .antiControl,
     none, some .postSelectOn, some .control]⟩,
   ⟨"Displays",
    [some (.familyOfSize "SampleDisplayFamily" 3),
     some (.familyOfSize "DensityMatrixDisplayFamily" 1),
     some (.familyOfSize "ProbabilityDisplayFamily" 1),
     none, some .blochSphereDisplay,
     some (.familyOfSize "AmplitudeDisplayFamily" 2)]⟩,
   ⟨"Half Turns",
    [some (.halfTurn "Z"), some (.halfTurn "Y"), some (.halfTurn "X"),
     some .swapHalf, none, some (.halfTurn "H")]⟩,
   ⟨"Quarter Turns",
    [some (.rotGate SqrtZForward), some (.rotGate SqrtYForward), some (.rotGate SqrtXForward),
     some (.rotGate SqrtZBackward), some (.rotGate SqrtYBackward), some (.rotGate SqrtXBackward)]⟩,
   ⟨"Eighth Turns",
    [some (.rotGate Z4), some (.rotGate Y4), some (.rotGate X4),
     some (.rotGate Z4i), some (.rotGate Y4i), some (.rotGate X4i)]⟩,
   ⟨"Misc",
    [some (.familyOfSize "PhaseGradientFamily" 2), none,
     some (.familyOfSize "FourierTransformFamily" 2),
     some (.familyOfSize "PhaseDegradientFamily" 2),
     some .mysteryGate, some .spacer]⟩,
   ⟨"Arithmetic",
    [some (.familyOfSize "CountingFamily" 2), some (.familyOfSize "AdditionFamily" 4),
     some (.familyOfSize "IncrementFamily" 2), some (.familyOfSize "UncountingFamily" 2),
     some (.familyOfSize "SubtractionFamily" 4), some (.familyOfSize "DecrementFamily" 2)]⟩,
   ⟨"Raising",
    [some (.powering "ZForward"), some (.powering "YForward"), some (.powering "XForward"),
     some (.powering "ZBackward"), some (.powering "YBackward"), some (.powering "XBackward")]⟩,
   ⟨"Exponentiating",
    [some (.exponentiating "ZForward"), some (.exponentiating "YForward"),
     some (.exponentiating "XForward"), some (.exponentiating "ZBackward"),
     some (.exponentiating "YBackward"), some (.exponentiating "XBackward")]⟩,
   ⟨"Other X",
    [some (.rotGate X16), some (.rotGate X8), some (.rotGate X3),
     some (.rotGate X16i), some (.rotGate X8i), some (.rotGate X3i)]⟩,
   ⟨"Other Y",
    [some (.rotGate Y16), some (.rotGate Y8), some (.rotGate Y3),
     some (.rotGate Y16i), some (.rotGate Y8i), some (.rotGate Y3i)]⟩,
   ⟨"Other Z", otherZSetGates⟩]

/-- `Gates.KnownToSerializer` (AllGates.js lines 561-649), in source order;
spread entries `...family.all` are recorded as `familyAll` references. -/
def Gates_KnownToSerializer : List CatalogRef :=
  [.control, .antiControl, .measurement, .swapHalf,
   .postSelectOff, .postSelectOn, .postSelectPlus, .postSelectMinus,
   .familyAll "AmplitudeDisplayFamily",
   .familyAll "ProbabilityDisplayFamily",
   .familyAll "SampleDisplayFamily",
   .familyAll "DensityMatrixDisplayFamily",
   .blochSphereDisplay,
   .spacer, .clockPulse, .quarterPhaseClockPulse,
   .halfTurn "H", .halfTurn "X", .halfTurn "Y", .halfTurn "Z",
   .rotGate SqrtXForward, .rotGate SqrtYForward, .rotGate SqrtZForward,
   .rotGate SqrtXBackward, .rotGate SqrtYBackward, .rotGate SqrtZBackward,
   .powering "XForward", .powering "YForward", .powering "ZForward",
   .powering "XBackward", .powering "YBackward", .powering "ZBackward",
   .exponentiating "XBackward", .exponentiating "YBackward", .exponentiating "ZBackward",
   .exponentiating "XForward", .exponentiating "YForward", .exponentiating "ZForward",
   .rotGate X3, .rotGate X4, .rotGate X8, .rotGate X16,
   .rotGate X3i, .rotGate X4i, .rotGate X8i, .rotGate X16i,
   .rotGate Y3, .rotGate Y4, .rotGate Y8, .rotGate Y16,
   .rotGate Y3i, .rotGate Y4i, .rotGate Y8i, .rotGate Y16i,
   .rotGate Z3, .rotGate Z4, .rotGate Z8, .rotGate Z16,
   .rotGate Z3i, .rotGate Z4i, .rotGate Z8i, .rotGate Z16i,
   .familyAll "IncrementFamily", .familyAll "DecrementFamily",
   .familyAll "AdditionFamily", .familyAll "SubtractionFamily",
   .familyAll "CountingFamily", .familyAll "UncountingFamily",
   .familyAll "FourierTransformFamily",
   .familyAll "PhaseGradientFamily", .familyAll "PhaseDegradientFamily",
   .universalNot, .errorInjection,
   .familyAll "CycleBitsFamily"]

/-! Helper lemmas. -/

/-- JavaScript `% 1` is idempotent: the remainder already lies in (-1, 1) and
truncates to zero. -/
theorem jsMod1_idem (q : ℚ) : jsMod1 (jsMod1 q) = jsMod1 q := by
  unfold jsMod1 jsTrunc
  by_cases hq : 0 ≤ q
  · rw [if_pos hq]
    have h0 : (0 : ℚ) ≤ q - ⌊q⌋ := by
      have := Int.floor_le q
      linarith
    rw [if_pos h0]
    have hfl : ⌊q - (⌊q⌋ : ℚ)⌋ = 0 := by
      rw [Int.floor_sub_int]
      omega
    rw [hfl]
    push_cast
    ring
  · rw [if_neg hq]
    have hle : q - (⌈q⌉ : ℚ) ≤ 0 := by
      have := Int.le_ceil q
      linarith
    have hgt : -1 < q - (⌈q⌉ : ℚ) := by
      have := Int.ceil_lt_add_one q
      linarith
    by_cases h0 : 0 ≤ q - (⌈q⌉ : ℚ)
    · rw [if_pos h0]
      have : q - (⌈q⌉ : ℚ) = 0 := le_antisymm hle h0
      rw [this]
      norm_num
    · rw [if_neg h0]
      have hcl : ⌈q - (⌈q⌉ : ℚ)⌉ = 0 := by
        rw [Int.ceil_sub_int]
        have : ⌈q⌉ - 1 < ⌈q⌉ := by omega
        have hup : ⌈q⌉ ≤ ⌈q⌉ := le_refl _
        have h1 : (⌈q⌉ : ℚ) - 1 < q := by
          have := Int.ceil_lt_add_one q
          by_contra hcon
          push_neg at hcon
          have : ⌈q⌉ ≤ ⌈q⌉ := le_refl _
          have hql : q ≤ (⌈q⌉ : ℚ) - 1 := hcon
          have : ⌈q⌉ ≤ ⌈q⌉ - 1 := by
            have := Int.ceil_le.mpr (by exact_mod_cast hql)
            omega
          omega
        have hlow : ⌈q⌉ - 1 < ⌈q⌉ := by omega
        omega
      rw [hcl]
      push_cast
      ring

/-- Collapsing a 0/1 permutation-matrix row against a vector: if `c0` is the
unique column below `n` mapped to row `r`, the product picks out `v c0`. -/
theorem matrixApply_permMatrix (f : Nat → Nat) (n : Nat) (v : Nat → ℂ) (r c0 : Nat)
    (hc0 : c0 < n) (hf : f c0 = r) (huniq : ∀ c, c < n → f c = r → c = c0) :
    matrixApply (fun r c => if r = f c then 1 else 0) n v r = v c0 := by
  show (∑ c in Finset.range n, (if r = f c then (1 : ℂ) else 0) * v c) = v c0
  rw [Finset.sum_eq_single c0]
  · rw [if_pos hf.symm, one_mul]
  · intro b hb hbne
    rcases eq_or_ne r (f b) with he | hne
    · exact absurd (huniq b (Finset.mem_range.mp hb) he.symm) hbne
    · rw [if_neg hne, zero_mul]
  · intro hmem
    exact absurd (Finset.mem_range.mpr hc0) hmem

/-- The span-1 Fourier matrix magnitude `Math.pow(0.5, 1/2)` is `1/√2`. -/
theorem qft1_mag : ((1 / 2 : ℝ) ^ (((1 : Nat) : ℝ) / 2)) = (Real.sqrt 2)⁻¹ := by
  rw [Nat.cast_one, ← Real.sqrt_eq_rpow, one_div, Real.sqrt_inv]

/-- Entries of the span-1 Fourier matrix in column 0 (phase τ·r·0/2 = 0). -/
theorem qft1_entry_zero_col (r : Nat) :
    FOURIER_TRANSFORM_MATRIX_MAKER 1 r 0 = (((Real.sqrt 2)⁻¹ : ℝ) : ℂ) := by
  unfold FOURIER_TRANSFORM_MATRIX_MAKER polar
  rw [Nat.cast_zero, mul_zero, zero_div, Complex.ofReal_zero, zero_mul, Complex.exp_zero,
    mul_one, qft1_mag]

/-- Entry (0, 1) of the span-1 Fourier matrix (phase τ·0·1/2 = 0). -/
theorem qft1_entry_zero_row :
    FOURIER_TRANSFORM_MATRIX_MAKER 1 0 1 = (((Real.sqrt 2)⁻¹ : ℝ) : ℂ) := by
  unfold FOURIER_TRANSFORM_MATRIX_MAKER polar
  rw [Nat.cast_zero, mul_zero, zero_mul, zero_div, Complex.ofReal_zero, zero_mul,
    Complex.exp_zero, mul_one, qft1_mag]

/-- The phase of entry (1, 1) of the span-1 Fourier matrix is π. -/
theorem qft1_angle :
    tau * ((1 : Nat) : ℝ) * ((1 : Nat) : ℝ) / (2 : ℝ) ^ (1 : Nat) = Real.pi := by
  rw [Nat.cast_one]
  unfold tau
  norm_num

/-- Entry (1, 1) of the span-1 Fourier matrix (phase π gives e^(iπ) = -1). -/
theorem qft1_entry_one_one :
    FOURIER_TRANSFORM_MATRIX_MAKER 1 1 1 = -(((Real.sqrt 2)⁻¹ : ℝ) : ℂ) := by
  unfold FOURIER_TRANSFORM_MATRIX_MAKER polar
  rw [qft1_angle, Complex.exp_pi_mul_I, mul_neg_one, qft1_mag]

/-! Claim theorems. -/

/-- C5: the mystery gate's randomness is consumed only at construction: the
gate returned by MysteryGateMaker carries one concretely fixed known matrix
(the closest-unitary adjustment of the matrix built from the eight random
samples), declares no time-varying matrix, and applying it at any two times
to equal inputs yields equal outputs. -/
theorem mystery_gate_deterministic
    (closestUnitary : (Nat → Nat → ℂ) → Nat → Nat → ℂ) (s : MysteryRandomSamples)
    (t1 t2 : ℚ) (v : Nat → ℂ) :
    (MysteryGateMaker closestUnitary s).knownMatrix =
      some (closestUnitary (mysteryRawMatrix s)) ∧
    (MysteryGateMaker closestUnitary s).varyingMatrix = none ∧
    matrixAt (MysteryGateMaker closestUnitary s) t1 =
      matrixAt (MysteryGateMaker closestUnitary s) t2 ∧
    applyGateAt (MysteryGateMaker closestUnitary s) t1 v =
      applyGateAt (MysteryGateMaker closestUnitary s) t2 v :=
  ⟨rfl, rfl, rfl, rfl⟩

/-- C5 witness: the determinism conclusion at a concrete construction. -/
theorem mystery_gate_deterministic_witness :
    applyGateAt (MysteryGateMaker (fun m => m) ⟨0, 0, 0, 0, 0, 0, 0, 0⟩) 0 ket0 =
      applyGateAt (MysteryGateMaker (fun m => m) ⟨0, 0, 0, 0, 0, 0, 0, 0⟩) 1 ket0 :=
  (mystery_gate_deterministic (fun m => m) ⟨0, 0, 0, 0, 0, 0, 0, 0⟩ 0 1 ket0).2.2.2

/-- C6: for every input texture, control texture and qubit index, the
ErrorInjection gate's custom shader raises a detailed fault (naming the gate
and the qubit) and never returns a shader output; the fault is an ordinary
`Except.error` value that a handler at the evaluator boundary catches and
reports, rather than a process termination. -/
theorem errorInjection_always_faults (inputTex controlTex qubit : Nat) :
    ErrorInjection.customShaders = [errorInjectionShader] ∧
    errorInjectionShader inputTex controlTex qubit =
      Except.error { message := "Applied an Error Injection Gate", detailQubit := qubit } ∧
    (∀ out, errorInjectionShader inputTex controlTex qubit ≠ Except.ok out) ∧
    (∀ (β : Type) (onFault : DetailedError → β) (onOk : ShaderGlsl → β),
      runShaderCaught (errorInjectionShader inputTex controlTex qubit) onFault onOk =
        onFault { message := "Applied an Error Injection Gate", detailQubit := qubit }) := by
  refine ⟨rfl, rfl, ?_, ?_⟩
  · intro out h
    exact Except.noConfusion h
  · intro β onFault onOk
    rfl

/-- C6 witness: the shader faults at a concrete qubit index. -/
theorem errorInjection_always_faults_witness :
    errorInjectionShader 0 0 3 =
      Except.error { message := "Applied an Error Injection Gate", detailQubit := 3 } :=
  (errorInjection_always_faults 0 0 3).2.1

/-- C7: constructing a WglTexture allocates no GPU resources; the first
instanceFor call for a context allocates and validates the pair exactly once,
and every subsequent instanceFor (or bindFramebufferFor) call for the same
context returns the same cached pair without reallocating. -/
theorem wglTexture_lazy_single_init (w h pt ctx : Nat) :
    (WglTexture_new w h pt).allocations = 0 ∧
    (WglTexture_new w h pt).validations = 0 ∧
    (WglTexture_new w h pt).slot = none ∧
    (instanceFor (WglTexture_new w h pt) ctx).2.allocations = 1 ∧
    (instanceFor (WglTexture_new w h pt) ctx).2.validations = 1 ∧
    (∀ s : WglTextureState, instanceFor (instanceFor s ctx).2 ctx = instanceFor s ctx) ∧
    (∀ s : WglTextureState,
      bindFramebufferFor (instanceFor s ctx).2 ctx =
        ((instanceFor s ctx).1.framebuffer, (instanceFor s ctx).2)) := by
  have hidem : ∀ s : WglTextureState,
      instanceFor (instanceFor s ctx).2 ctx = instanceFor s ctx := by
    intro s
    rcases hs : s.slot with _ | ⟨c, hdl⟩
    · simp [instanceFor, initializePair, hs]
    · by_cases hc : c = ctx
      · simp [instanceFor, hs, hc]
      · simp [instanceFor, initializePair, hs, hc]
  refine ⟨rfl, rfl, rfl, rfl, rfl, hidem, ?_⟩
  intro s
  unfold bindFramebufferFor
  rw [hidem s]

/-- C7 witness: the constructor performs no allocation at concrete inputs. -/
theorem wglTexture_lazy_single_init_witness :
    (WglTexture_new 4 8 0).allocations = 0 ∧
    (instanceFor (WglTexture_new 4 8 0) 7).2.allocations = 1 :=
  ⟨(wglTexture_lazy_single_init 4 8 0 7).1,
   (wglTexture_lazy_single_init 4 8 0 7).2.2.2.1⟩

/-- C8 counterexample: the claim that the fault names the texture's
dimensions is false.  Two textures of different dimensions failing the same
way at texImage2D raise the identical fault (operation description and error
code only), so the fault cannot name the width and height. -/
theorem initializer_fault_omits_dimensions :
    textureAndFramebufferInitializerRun 2 4 ⟨1, 0, 36053, 0⟩ =
      Except.error ⟨"texImage2D", 1⟩ ∧
    textureAndFramebufferInitializerRun 8 16 ⟨1, 0, 36053, 0⟩ =
      Except.error ⟨"texImage2D", 1⟩ ∧
    ((2, 4) : Nat × Nat) ≠ (8, 16) :=
  ⟨rfl, rfl, by decide⟩

/-- C8 (amended): whenever a check fails during WglTexture initialization or
bindFramebufferFor, a fatal fault is raised carrying the operation
description string passed at the failing call site and the GL error code —
but not the texture's dimensions. -/
theorem initializer_fault_names_operation (w h : Nat) (env : GlEnv) :
    (env.errAfterTexImage2D ≠ GL_NO_ERROR →
      textureAndFramebufferInitializerRun w h env =
        Except.error ⟨"texImage2D", env.errAfterTexImage2D⟩) ∧
    (env.errAfterTexImage2D = GL_NO_ERROR →
      env.errAfterFramebufferTexture2D ≠ GL_NO_ERROR →
      textureAndFramebufferInitializerRun w h env =
        Except.error ⟨"framebufferTexture2D", env.errAfterFramebufferTexture2D⟩) ∧
    (env.errAfterTexImage2D = GL_NO_ERROR →
      env.errAfterFramebufferTexture2D = GL_NO_ERROR →
      env.framebufferStatus ≠ GL_FRAMEBUFFER_COMPLETE →
      textureAndFramebufferInitializerRun w h env =
        Except.error ⟨"checkFramebufferStatus", env.framebufferStatus⟩) ∧
    (env.errAfterBindFramebuffer ≠ GL_NO_ERROR →
      bindFramebufferForChecks env =
        Except.error ⟨"framebufferTexture2D", env.errAfterBindFramebuffer⟩) := by
  refine ⟨?_, ?_, ?_, ?_⟩
  · intro h1
    unfold textureAndFramebufferInitializerRun checkGetErrorResult
    rw [if_neg h1]
  · intro h1 h2
    unfold textureAndFramebufferInitializerRun checkGetErrorResult
    rw [if_pos h1, if_neg h2]
  · intro h1 h2 h3
    unfold textureAndFramebufferInitializerRun checkGetErrorResult
      checkFrameBufferStatusResult
    rw [if_pos h1, if_pos h2, if_neg h3]
  · intro h1
    unfold bindFramebufferForChecks checkGetErrorResult
    rw [if_neg h1]

/-- C8 (amended) witness: a concrete texImage2D failure yields the fault
naming that operation and the error code. -/
theorem initializer_fault_names_operation_witness :
    textureAndFramebufferInitializerRun 2 4 ⟨5, 0, 36053, 0⟩ =
      Except.error ⟨"texImage2D", 5⟩ :=
  (initializer_fault_names_operation 2 4 ⟨5, 0, 36053, 0⟩).1 (by decide)

/-- C10: the quarter-phase clock pulse gate's time-varying matrix at t equals
the clock pulse gate's matrix at t + 0.75; the clock gate's matrix is
insensitive to taking the time modulo 1, and each gate's matrix is the 2×2
identity when its phase fraction is below one half and Pauli X otherwise. -/
theorem clock_pulse_quarter_phase_relation (t : ℚ) :
    QuarterPhaseClockPulseGate.varyingMatrix = some quarterPhaseClockPulseMatrix ∧
    ClockPulseGate.varyingMatrix = some clockPulseMatrix ∧
    quarterPhaseClockPulseMatrix t = clockPulseMatrix (t + 3 / 4) ∧
    clockPulseMatrix (jsMod1 (t + 3 / 4)) = clockPulseMatrix (t + 3 / 4) ∧
    (jsMod1 t < 1 / 2 → clockPulseMatrix t = Matrix_identity 2) ∧
    (¬ jsMod1 t < 1 / 2 → clockPulseMatrix t = Matrix_PAULI_X) := by
  refine ⟨rfl, rfl, rfl, ?_, ?_, ?_⟩
  · unfold clockPulseMatrix
    rw [jsMod1_idem]
  · intro hlt
    unfold clockPulseMatrix
    rw [if_pos hlt]
  · intro hge
    unfold clockPulseMatrix
    rw [if_neg hge]

/-- C10 witness: the relation and branch behavior at concrete times. -/
theorem clock_pulse_quarter_phase_relation_witness :
    quarterPhaseClockPulseMatrix 0 = clockPulseMatrix (0 + 3 / 4) ∧
    clockPulseMatrix 0 = Matrix_identity 2 :=
  ⟨(clock_pulse_quarter_phase_relation 0).2.2.1,
   (clock_pulse_quarter_phase_relation 0).2.2.2.2.1 (by
     show jsMod1 0 < 1 / 2
     norm_num [jsMod1, jsTrunc])⟩

/-- C1: for every span in 1..16, the FourierTransformFamily gate of that span
has a custom kernel list of exactly ⌊span/2⌋ swap passes (the i-th swapping
bit offset i with bit offset span-1-i) followed by exactly span Fourier-step
passes (the i-th applying step index i); for span ≥ 4 the gate carries no
known matrix, so the kernel list is its only definition. -/
theorem qft_kernel_list_structure (span : Nat) (h1 : 1 ≤ span) (h16 : span ≤ 16) :
    (qftGate span).customShaders.length = span / 2 + span ∧
    (∀ i, i < span / 2 →
      (qftGate span).customShaders.get? i =
        some (fun val con bit =>
          Except.ok (ShaderGlsl.swap val (bit + i) (bit + (span - 1 - i)) con))) ∧
    (∀ i, i < span →
      (qftGate span).customShaders.get? (span / 2 + i) =
        some (fun val con bit => Except.ok (ShaderGlsl.fourierStep val con bit i))) ∧
    (4 ≤ span → (qftGate span).knownMatrix = none) := by
  refine ⟨?_, ?_, ?_, ?_⟩
  · show ((List.range (span / 2)).map _ ++ (List.range span).map _).length = span / 2 + span
    rw [List.length_append, List.length_map, List.length_map, List.length_range,
      List.length_range]
  · intro i hi
    show ((List.range (span / 2)).map _ ++ (List.range span).map _).get? i = _
    rw [List.get?_append (by simpa using hi), List.get?_map, List.get?_range hi]
    have hbit : ∀ bit : Nat, bit + span - i - 1 = bit + (span - 1 - i) := by
      intro bit
      omega
    simp only [Option.map_some']
    congr 1
    funext val con bit
    rw [hbit bit]
  · intro i hi
    show ((List.range (span / 2)).map _ ++ (List.range span).map _).get? (span / 2 + i) = _
    rw [List.get?_append_right (by simp)]
    rw [List.get?_map]
    simp only [List.length_map, List.length_range, Nat.add_sub_cancel_left]
    rw [List.get?_range hi]
    rfl
  · intro h4
    show (if 4 ≤ span then none else some (FOURIER_TRANSFORM_MATRIX_MAKER span)) = none
    rw [if_pos h4]

/-- C1 witness: the span-5 gate has 2 swap + 5 Fourier-step kernels, and the
span-5 gate (span ≥ 4) has no known matrix. -/
theorem qft_kernel_list_structure_witness :
    (qftGate 5).customShaders.length = 5 / 2 + 5 ∧ (qftGate 5).knownMatrix = none :=
  ⟨(qft_kernel_list_structure 5 (by decide) (by decide)).1,
   (qft_kernel_list_structure 5 (by decide) (by decide)).2.2.2 (by decide)⟩

/-- C2: instantiating FourierTransformFamily for spans 1..16 yields exactly
16 gate definitions; their serialization ids are exactly the 16 distinct
strings "QFT1".."QFT16" in span order, their heights are 1..16 in the same
order, so the definition with id "QFT"+span has height span. -/
theorem qft_family_serialized_ids :
    Gates_FourierTransformFamily.length = 16 ∧
    Gates_FourierTransformFamily.map (fun g => g.serializedId) =
      ["QFT1", "QFT2", "QFT3", "QFT4", "QFT5", "QFT6", "QFT7", "QFT8",
       "QFT9", "QFT10", "QFT11", "QFT12", "QFT13", "QFT14", "QFT15", "QFT16"] ∧
    (Gates_FourierTransformFamily.map (fun g => g.serializedId)).Nodup ∧
    Gates_FourierTransformFamily.map (fun g => g.height) =
      [1, 2, 3, 4, 5, 6, 7, 8, 9, 10, 11, 12, 13, 14, 15, 16] :=
  ⟨rfl, rfl, by decide, rfl⟩

/-- C9: in the "Other Z" row of the Gates.Sets grouping table, the Z16 gate
appears at the two distinct positions 0 and 3 while its adjoint Z16i appears
nowhere in the row, even though Z16i is a defined gate (adjoint, z-parameter
the negation of Z16's) that is included in Gates.KnownToSerializer. -/
theorem otherZ_set_anomaly :
    Gates_Sets.get? 11 = some ⟨"Other Z", otherZSetGates⟩ ∧
    otherZSetGates.get? 0 = some (some (.rotGate Z16)) ∧
    otherZSetGates.get? 3 = some (some (.rotGate Z16)) ∧
    otherZSetGates.count (some (.rotGate Z16)) = 2 ∧
    some (CatalogRef.rotGate Z16i) ∉ otherZSetGates ∧
    Z16i.title = "Z^-⅟₁₆ Gate" ∧
    Z16i.z = Z16.z.neg ∧
    Z16i ≠ Z16 ∧
    CatalogRef.rotGate Z16i ∈ Gates_KnownToSerializer := by
  decide

/-- C4: for the spans at which the bit-cycle gate has a known matrix (2 and
3), CYCLE_BITS_MATRIX_MAKER(span) is the permutation matrix whose entry
(r, c) is 1 exactly when r equals c rotated left by one position within span
bits (0 otherwise), and applying it to any state preserves the exact
multiset of amplitude values, only relocating them. -/
theorem cycleBits_permutation_matrix (span : Nat) (hspan : span = 2 ∨ span = 3)
    (v : Nat → ℂ) :
    (cycleBitsGate span).knownMatrix = some (CYCLE_BITS_MATRIX_MAKER span) ∧
    (∀ r c, c < 2 ^ span →
      (CYCLE_BITS_MATRIX_MAKER span r c = 1 ↔ r = rotLeftSpec span c) ∧
      (r ≠ rotLeftSpec span c → CYCLE_BITS_MATRIX_MAKER span r c = 0)) ∧
    Multiset.map (matrixApply (CYCLE_BITS_MATRIX_MAKER span) (2 ^ span) v)
        (Finset.range (2 ^ span)).val =
      Multiset.map v (Finset.range (2 ^ span)).val := by
  have hrot : ∀ c, c < 2 ^ span → jsRotl span c = rotLeftSpec span c := by
    rcases hspan with h | h <;> subst h <;> decide
  refine ⟨?_, ?_, ?_⟩
  · show (if 4 ≤ span then none else some (CYCLE_BITS_MATRIX_MAKER span)) = some _
    rcases hspan with h | h <;> subst h <;> rfl
  · intro r c hc
    have hdef : CYCLE_BITS_MATRIX_MAKER span r c =
        (if r = jsRotl span c then (1 : ℂ) else 0) := rfl
    rw [hdef, hrot c hc]
    constructor
    · constructor
      · intro h1
        by_contra hne
        rw [if_neg hne] at h1
        exact zero_ne_one h1
      · intro he
        rw [if_pos he]
    · intro hne
      rw [if_neg hne]
  · have hperm : ∀ r, r < 2 ^ span →
        jsRotl span (rotRight span r) = r ∧ rotRight span r < 2 ^ span ∧
          ∀ c, c < 2 ^ span → jsRotl span c = r → c = rotRight span r := by
      rcases hspan with h | h <;> subst h <;> decide
    have happ : ∀ r ∈ (Finset.range (2 ^ span)).val,
        matrixApply (CYCLE_BITS_MATRIX_MAKER span) (2 ^ span) v r =
          (fun x => v (rotRight span x)) r := by
      intro r hr
      have hrlt : r < 2 ^ span := Finset.mem_range.mp hr
      obtain ⟨hround, hlt, huniq⟩ := hperm r hrlt
      exact matrixApply_permMatrix (jsRotl span) (2 ^ span) v r (rotRight span r)
        hlt hround huniq
    have hmul : Multiset.map (rotRight span) (Finset.range (2 ^ span)).val =
        (Finset.range (2 ^ span)).val := by
      rcases hspan with h | h <;> subst h <;> decide
    calc
      Multiset.map (matrixApply (CYCLE_BITS_MATRIX_MAKER span) (2 ^ span) v)
          (Finset.range (2 ^ span)).val
        = Multiset.map (fun x => v (rotRight span x)) (Finset.range (2 ^ span)).val :=
          Multiset.map_congr rfl happ
      _ = Multiset.map v (Multiset.map (rotRight span) (Finset.range (2 ^ span)).val) :=
          (Multiset.map_map v (rotRight span) _).symm
      _ = Multiset.map v (Finset.range (2 ^ span)).val := by rw [hmul]

/-- C4 witness: multiset preservation at span 2 for a concrete state. -/
theorem cycleBits_permutation_matrix_witness :
    Multiset.map (matrixApply (CYCLE_BITS_MATRIX_MAKER 2) (2 ^ 2) (fun n => (n : ℂ)))
        (Finset.range (2 ^ 2)).val =
      Multiset.map (fun n => ((n : Nat) : ℂ)) (Finset.range (2 ^ 2)).val :=
  (cycleBits_permutation_matrix 2 (Or.inl rfl) (fun n => (n : ℂ))).2.2

/-- C3 counterexample: applying the span-1 Fourier transform to the
single-qubit state |0⟩ = [1, 0] does not return the input within the 1e-6
tolerance — the output's second amplitude is 1/√2, which differs from the
input's 0 by far more than 1e-6.  The span-1 discrete Fourier transform is
the Hadamard transform, not the identity. -/
theorem qft1_not_identity_on_ket0 :
    Complex.abs (matrixApply (FOURIER_TRANSFORM_MATRIX_MAKER 1) 2 ket0 1 - ket0 1) >
      1 / 1000000 := by
  have hv : matrixApply (FOURIER_TRANSFORM_MATRIX_MAKER 1) 2 ket0 1 - ket0 1 =
      (((Real.sqrt 2)⁻¹ : ℝ) : ℂ) := by
    show (∑ c in Finset.range 2, FOURIER_TRANSFORM_MATRIX_MAKER 1 1 c * ket0 c) - ket0 1 = _
    rw [Finset.sum_range_succ, Finset.sum_range_one, qft1_entry_zero_col 1,
      qft1_entry_one_one]
    simp [ket0]
  rw [hv, Complex.abs_ofReal]
  have hpos : 0 < Real.sqrt 2 := Real.sqrt_pos.mpr (by norm_num)
  have hle : Real.sqrt 2 ≤ 2 := by
    nlinarith [Real.sq_sqrt (show (0 : ℝ) ≤ 2 by norm_num), Real.sqrt_nonneg 2]
  rw [abs_of_pos (by positivity)]
  have hlow : (2 : ℝ)⁻¹ ≤ (Real.sqrt 2)⁻¹ := inv_le_inv_of_le hpos hle
  have hsmall : (1 : ℝ) / 1000000 < (2 : ℝ)⁻¹ := by norm_num
  linarith

/-- C3 (amended): applying FourierTransformFamily.ofSize(1) to a single-qubit
amplitude state yields the Hadamard (1-qubit discrete Fourier) transform of
the input — output amplitudes (v0 + v1)/√2 and (v0 − v1)/√2 — rather than the
input itself. -/
theorem qft1_applies_hadamard (v : Nat → ℂ) :
    (qftGate 1).knownMatrix = some (FOURIER_TRANSFORM_MATRIX_MAKER 1) ∧
    Gates_FourierTransformFamily.get? 0 = some (qftGate 1) ∧
    matrixApply (FOURIER_TRANSFORM_MATRIX_MAKER 1) 2 v 0 =
      (((Real.sqrt 2)⁻¹ : ℝ) : ℂ) * (v 0 + v 1) ∧
    matrixApply (FOURIER_TRANSFORM_MATRIX_MAKER 1) 2 v 1 =
      (((Real.sqrt 2)⁻¹ : ℝ) : ℂ) * (v 0 - v 1) := by
  refine ⟨rfl, rfl, ?_, ?_⟩
  · show (∑ c in Finset.range 2, FOURIER_TRANSFORM_MATRIX_MAKER 1 0 c * v c) = _
    rw [Finset.sum_range_succ, Finset.sum_range_one, qft1_entry_zero_col 0,
      qft1_entry_zero_row]
    ring
  · show (∑ c in Finset.range 2, FOURIER_TRANSFORM_MATRIX_MAKER 1 1 c * v c) = _
    rw [Finset.sum_range_succ, Finset.sum_range_one, qft1_entry_zero_col 1,
      qft1_entry_one_one]
    ring

/-- C3 (amended) witness: the Hadamard action on the concrete state |0⟩. -/
theorem qft1_applies_hadamard_witness :
    matrixApply (FOURIER_TRANSFORM_MATRIX_MAKER 1) 2 ket0 0 =
      (((Real.sqrt 2)⁻¹ : ℝ) : ℂ) * (ket0 0 + ket0 1) :=
  (qft1_applies_hadamard ket0).2.2.1

end Quirk
